import Mathlib

/-!
Verification development for the scheduling/buffering layer of
`demo/action_predictor.py` (class `AVAPredictorWorker`, with the feature
cache used by `AVAPredictor.update_feature` / `AVAPredictor.compute_prediction`).

The neural networks (detector, temporal model), image transforms and tensors
are opaque collaborators; only the data they carry through the scheduling
layer is modelled.  Frames, object boxes and predictions are represented by
opaque `Nat` tokens; person boxes are modelled as `Option (List Nat)`
(Python `None` or a sequence, of which only `is None` / `len` are inspected
by the worker).  Timestamps (`cur_millis`) are modelled as `Nat`; the Python
value is a millisecond count (cast with `int(...)` before use as a key), and
Python `//` on non-negative integers is `Nat` division.
-/

/-- One inbound work item: the tuple `(frame, cur_millis, boxes, scores, ids)`
dequeued from `input_queue` as `extra`, together with the accompanying
`video_size` (lines 286, 296 of `demo/action_predictor.py`). -/
structure InItem where
  frame : Nat
  cur_millis : Nat
  boxes : Option (List Nat)
  scores : Nat
  ids : List Nat
  video_size : Nat × Nat
deriving DecidableEq

/-- One entry of `self.extra_stack`: the tuple
`(cur_millis, boxes, scores, ids)` appended at line 299. -/
structure StackEntry where
  ts : Nat
  boxes : Option (List Nat)
  scores : Nat
  ids : List Nat
deriving DecidableEq

/-- One deferred FiringRecord: the tuple
`(center_timestamp, video_size, person_ids[:, 0])` appended to
`self.timestamps` at line 342 in batch (non-realtime) mode.
`person_ids[:, 0]` is a column slice of an opaque id array; ids are opaque
tokens here, so the slice is carried through unchanged. -/
structure FiringRecord where
  center_ts : Nat
  video_size : Nat × Nat
  ids : List Nat
deriving DecidableEq

/-- An element put on `output_queue`: either a result tuple
`(predictions, center_timestamp, ids)` (lines 280, 339) or the terminal
string marker `"done"` (line 282).  The prediction itself is the opaque
output of `AVAPredictor.compute_prediction`; what the scheduling layer
determines is the cache key passed to the scorer, so a result is
represented by that key together with the timestamp and ids fields. -/
inductive Out where
  | result (key : Nat) (ts : Nat) (ids : List Nat)
  | done
deriving DecidableEq

/-- Worker configuration, fixed at construction
(`AVAPredictorWorker.__init__`):
`N` is `self.frame_buffer_numbers = FRAME_NUM * FRAME_SAMPLE_RATE`
(line 197), `interval` is `self.interval = 1000 // self.detect_rate`
(line 205), `realtime` is `self.realtime = cfg.realtime` (line 168). -/
structure Cfg where
  N : Nat
  interval : Nat
  realtime : Bool
deriving DecidableEq

/-- `self.interval = 1000 // self.detect_rate` (line 205). -/
def intervalOf (detect_rate : Nat) : Nat := 1000 / detect_rate

/-- The worker-process state mutated by `_compute_prediction`:
`frame_stack`, `extra_stack` (lines 194-195), `last_milli` (line 203),
`timestamps` (the FiringRecord list, line 193), `task_done` (line 210).
`putKeys` is the list of keys written into the predictor's memory pools
(`mem_pool` / `object_pool` both receive every `("SingleVideo", key)` write
made by `update_feature`, lines 116-117), in write order.  `fired` is an
event log recording, in order, the `cur_millis` of every execution of the
assignment `self.last_milli = cur_millis` (line 305); it is an observation
history used to state run-level properties, not program state. -/
structure WState where
  frame_stack : List Nat
  extra_stack : List StackEntry
  last_milli : Nat
  timestamps : List FiringRecord
  putKeys : List Nat
  fired : List Nat
  task_done : Bool
deriving DecidableEq

/-- The worker state right after `__init__`: empty stacks, `last_milli = 0`
(line 203), no records, empty pools, `task_done = False` (line 210). -/
def initState : WState :=
  ⟨[], [], 0, [], [], [], false⟩

/-- Python list slice `l[-n:]` (lines 300-301).  For `n ≥ 1` this keeps the
most recent `min n (length l)` elements; Python's `l[-0:]` is `l[0:]`, the
whole list, so `n = 0` is the identity. -/
def pyTail (n : Nat) (l : List α) : List α :=
  if n = 0 then l else l.drop (l.length - n)

/-- `self.frame_stack` after the append (line 298) and truncation
(line 300) performed for item `x`. -/
def pushFrames (cfg : Cfg) (s : WState) (x : InItem) : List Nat :=
  pyTail cfg.N (s.frame_stack ++ [x.frame])

/-- `self.extra_stack` after the append (line 299) and truncation
(line 301) performed for item `x`. -/
def pushExtras (cfg : Cfg) (s : WState) (x : InItem) : List StackEntry :=
  pyTail cfg.N (s.extra_stack ++ [⟨x.cur_millis, x.boxes, x.scores, x.ids⟩])

/-- The firing condition of the interval scheduler, line 304:
`len(self.frame_stack) >= self.frame_buffer_numbers and
 cur_millis > self.last_milli + self.interval`
(evaluated on the already-truncated stack, against the pre-update
`last_milli`). -/
def fires (cfg : Cfg) (s : WState) (x : InItem) : Bool :=
  decide (cfg.N ≤ (pushFrames cfg s x).length) &&
  decide (s.last_milli + cfg.interval < x.cur_millis)

/-- The window's center entry
`self.extra_stack[center_index]` with `center_index = N // 2`
(lines 307-308).  In the source this indexing is always in range when the
firing branch is entered (the truncated stack has length `N ≥ 1` there);
`getD` with a dummy default makes the function total. -/
def centerEntry (cfg : Cfg) (s : WState) (x : InItem) : StackEntry :=
  (pushExtras cfg s x).getD (cfg.N / 2) ⟨0, none, 0, []⟩

/-- The empty-detection test of line 310:
`person_boxes is None or len(person_boxes) == 0`. -/
def noPersonBoxes : Option (List Nat) → Bool
  | none => true
  | some bs => decide (bs.length = 0)

/-- One iteration of the worker loop processing a dequeued frame item
(lines 296-342 of `demo/action_predictor.py`), with the external
collaborators (transforms, detector, model) taken to succeed.  Returns the
new state and the list of tuples put on `output_queue` during this
iteration.

Control flow translated:
  - lines 298-301: append to both stacks, truncate both to `[-N:]`;
  - line 304: firing condition (`fires`);
  - line 305: `self.last_milli = cur_millis` (also logged in `fired`);
  - lines 307-311: read the center entry; if its person boxes are `None`
    or empty, `continue` (nothing else happens this iteration);
  - lines 313-334: detector + `update_feature` at cache key
    `center_timestamp // self.interval` (the pool write, recorded in
    `putKeys`);
  - lines 336-339 (realtime): `compute_prediction` at the same key and one
    `output_queue.put((predictions, center_timestamp, person_ids[:, 0]))`;
  - lines 340-342 (batch): append one FiringRecord to `self.timestamps`,
    nothing is put on the output queue. -/
def processItem (cfg : Cfg) (s : WState) (x : InItem) : WState × List Out :=
  if fires cfg s x then
    if noPersonBoxes (centerEntry cfg s x).boxes then
      ({ s with frame_stack := pushFrames cfg s x, extra_stack := pushExtras cfg s x,
                last_milli := x.cur_millis, fired := s.fired ++ [x.cur_millis] }, [])
    else if cfg.realtime then
      ({ s with frame_stack := pushFrames cfg s x, extra_stack := pushExtras cfg s x,
                last_milli := x.cur_millis, fired := s.fired ++ [x.cur_millis],
                putKeys := s.putKeys ++ [(centerEntry cfg s x).ts / cfg.interval] },
       [Out.result ((centerEntry cfg s x).ts / cfg.interval) (centerEntry cfg s x).ts
          (centerEntry cfg s x).ids])
    else
      ({ s with frame_stack := pushFrames cfg s x, extra_stack := pushExtras cfg s x,
                last_milli := x.cur_millis, fired := s.fired ++ [x.cur_millis],
                putKeys := s.putKeys ++ [(centerEntry cfg s x).ts / cfg.interval],
                timestamps := s.timestamps ++
                  [⟨(centerEntry cfg s x).ts, x.video_size, (centerEntry cfg s x).ids⟩] },
       [])
  else
    ({ s with frame_stack := pushFrames cfg s x, extra_stack := pushExtras cfg s x }, [])

/-- Processing a list of inbound frame items in FIFO order (the worker loop
restricted to non-sentinel items), accumulating in order everything put on
`output_queue`. -/
def run (cfg : Cfg) (s : WState) : List InItem → WState × List Out
  | [] => (s, [])
  | x :: xs =>
    let r := processItem cfg s x
    let rest := run cfg r.1 xs
    (rest.1, r.2 ++ rest.2)

/-- The output tuples produced by the deferred prediction pass, line 278-280:
`for center_timestamp, video_size, ids in self.timestamps:` put
`(self.ava_predictor.compute_prediction(center_timestamp // self.interval, video_size),
  center_timestamp, ids)`. -/
def flushOuts (cfg : Cfg) : List FiringRecord → List Out
  | [] => []
  | r :: rs => Out.result (r.center_ts / cfg.interval) r.center_ts r.ids :: flushOuts cfg rs

/-- The drain flush, lines 276-283: once `task_done` is observed with the
input queue exhausted, iterate `self.timestamps` in list (insertion) order,
putting one result tuple per record, then put the terminal `"done"` marker
and reset `task_done` to `False` (line 283).  `self.timestamps` itself is
not cleared by the source. -/
def flush (cfg : Cfg) (s : WState) : WState × List Out :=
  ({ s with task_done := false }, flushOuts cfg s.timestamps ++ [Out.done])

/-- The center timestamps of the result tuples of an output list, in
emission order (the `"done"` marker carries no timestamp). -/
def resultTimestamps : List Out → List Nat
  | [] => []
  | Out.result _ ts _ :: rest => ts :: resultTimestamps rest
  | Out.done :: rest => resultTimestamps rest

/-- `ascChk l = true` iff `l` is in ascending (non-decreasing) order. -/
def ascChk : List Nat → Bool
  | [] => true
  | [_] => true
  | a :: b :: rest => decide (a ≤ b) && ascChk (b :: rest)

/-- `gapsChk i prev l = true` iff each element of `l` strictly exceeds its
predecessor (initially `prev`) by more than `i`. -/
def gapsChk (interval : Nat) : Nat → List Nat → Bool
  | _, [] => true
  | prev, t :: ts => decide (prev + interval < t) && gapsChk interval t ts

/-- The last element of a list, or `d` when the list is empty. -/
def lastOr (d : Nat) : List Nat → Nat
  | [] => d
  | t :: ts => lastOr t ts

/-- Failures of the opaque external collaborators invoked inside a firing
cycle (spec section 7: "Detector/scorer invocation failures — propagated
from the external collaborator"). -/
inductive ExtErr where
  | detectorFailure
  | updateFailure
  | scorerFailure
deriving DecidableEq

/-- The fallible external collaborators of one firing cycle:
`det` stands for the object-detector calls on the key frame
(`image_preprocess` / `images_detection`, lines 318-321, returning opaque
object boxes), `upd` for `ava_predictor.update_feature` at a cache key
(lines 330-334), `score` for `ava_predictor.compute_prediction` at a cache
key (lines 279, 337, returning an opaque prediction). -/
structure Collab where
  det : Nat → Except ExtErr Nat
  upd : Nat → Except ExtErr Unit
  score : Nat → Except ExtErr Nat

/-- One iteration of the worker loop with fallible collaborators, following
the same source lines as `processItem`.  The `try/except` at lines 285-290
guards only the `input_queue.get` call (`queue.Empty`, `FileNotFoundError`);
no handler encloses the firing cycle, so a collaborator exception escapes
`_compute_prediction`.  Python attribute mutations made before the raise
persist on the object, so the returned state carries every assignment
executed before the failing call: the stack pushes and
`self.last_milli = cur_millis` (line 305) always precede the detector and
model calls, and the `update_feature` pool write precedes a realtime
`compute_prediction` call. -/
def processItemE (cfg : Cfg) (cb : Collab) (s : WState) (x : InItem) :
    WState × Except ExtErr (List Out) :=
  if fires cfg s x then
    if noPersonBoxes (centerEntry cfg s x).boxes then
      ({ s with frame_stack := pushFrames cfg s x, extra_stack := pushExtras cfg s x,
                last_milli := x.cur_millis, fired := s.fired ++ [x.cur_millis] }, .ok [])
    else
      match cb.det ((pushFrames cfg s x).getD (cfg.N / 2) 0) with
      | .error e =>
        ({ s with frame_stack := pushFrames cfg s x, extra_stack := pushExtras cfg s x,
                  last_milli := x.cur_millis, fired := s.fired ++ [x.cur_millis] }, .error e)
      | .ok _objBoxes =>
        match cb.upd ((centerEntry cfg s x).ts / cfg.interval) with
        | .error e =>
          ({ s with frame_stack := pushFrames cfg s x, extra_stack := pushExtras cfg s x,
                    last_milli := x.cur_millis, fired := s.fired ++ [x.cur_millis] }, .error e)
        | .ok _ =>
          if cfg.realtime then
            match cb.score ((centerEntry cfg s x).ts / cfg.interval) with
            | .error e =>
              ({ s with frame_stack := pushFrames cfg s x, extra_stack := pushExtras cfg s x,
                        last_milli := x.cur_millis, fired := s.fired ++ [x.cur_millis],
                        putKeys := s.putKeys ++ [(centerEntry cfg s x).ts / cfg.interval] },
               .error e)
            | .ok _p =>
              ({ s with frame_stack := pushFrames cfg s x, extra_stack := pushExtras cfg s x,
                        last_milli := x.cur_millis, fired := s.fired ++ [x.cur_millis],
                        putKeys := s.putKeys ++ [(centerEntry cfg s x).ts / cfg.interval] },
               .ok [Out.result ((centerEntry cfg s x).ts / cfg.interval)
                      (centerEntry cfg s x).ts (centerEntry cfg s x).ids])
          else
            ({ s with frame_stack := pushFrames cfg s x, extra_stack := pushExtras cfg s x,
                      last_milli := x.cur_millis, fired := s.fired ++ [x.cur_millis],
                      putKeys := s.putKeys ++ [(centerEntry cfg s x).ts / cfg.interval],
                      timestamps := s.timestamps ++
                        [⟨(centerEntry cfg s x).ts, x.video_size, (centerEntry cfg s x).ids⟩] },
             .ok [])
  else
    ({ s with frame_stack := pushFrames cfg s x, extra_stack := pushExtras cfg s x }, .ok [])

/-- The worker loop with fallible collaborators over a list of inbound
items.  An uncaught collaborator exception aborts the loop: the remaining
items are never dequeued, and the state at the raise point is what the
(now dead) worker process holds. -/
def runE (cfg : Cfg) (cb : Collab) (s : WState) :
    List InItem → WState × Except ExtErr (List Out)
  | [] => (s, .ok [])
  | x :: xs =>
    match processItemE cfg cb s x with
    | (s1, .error e) => (s1, .error e)
    | (s1, .ok o1) =>
      match runE cfg cb s1 xs with
      | (s2, .error e) => (s2, .error e)
      | (s2, .ok o2) => (s2, .ok (o1 ++ o2))

/-- Errors of the feature cache and of the flush trigger (spec section 7). -/
inductive WorkerError where
  | duplicateKey
  | keyNotFound
  | invalidMode
deriving DecidableEq

/-- Modelled from the spec: the class `MemoryPool`
(`structures/memory_pool.py`, imported at line 14 of
`demo/action_predictor.py`) is not under src/; spec section 4.1 specifies
its contract: a mapping from a composite `(stream-id, timestamp)` key to an
opaque value, insert-only.  Entries are kept as an association list in
insertion order. -/
structure MemoryPool (α : Type) where
  entries : List ((String × Nat) × α)

/-- Modelled from the spec: `put(stream_id, timestamp, value)` "stores value
under the composite key; fails with `DuplicateKeyError` if a caller attempts
to overwrite an existing key" (spec section 4.1). -/
def MemoryPool.put (p : MemoryPool α) (sid : String) (ts : Nat) (v : α) :
    Except WorkerError (MemoryPool α) :=
  if p.entries.any (fun e => e.1 = (sid, ts)) then .error .duplicateKey
  else .ok ⟨p.entries ++ [((sid, ts), v)]⟩

/-- Modelled from the spec: `get(stream_id, timestamp)` "returns the stored
value or fails with `KeyNotFoundError` if absent" (spec section 4.1). -/
def MemoryPool.get (p : MemoryPool α) (sid : String) (ts : Nat) :
    Except WorkerError α :=
  match p.entries.find? (fun e => e.1 = (sid, ts)) with
  | some e => .ok e.2
  | none => .error .keyNotFound

/-- Whether the composite key `(sid, ts)` is occupied in the pool. -/
def MemoryPool.containsKey (p : MemoryPool α) (sid : String) (ts : Nat) : Bool :=
  p.entries.any (fun e => e.1 = (sid, ts))

/-- The fixed stream id used by the single-stream worker
(`"SingleVideo"`, lines 116-117, 137-138, 141). -/
def singleVideo : String := "SingleVideo"

/-- `AVAPredictorWorker.compute_prediction` (lines 255-257), the external
trigger of the drain flush, as observed on the worker control state:
`assert self.realtime == False, ...` then `self._task_done.value = True`.
Returns the raised-or-not outcome together with the resulting value of the
`task_done` flag; when the assertion fires (Python `AssertionError`, the
spec's `InvalidModeError`), the assignment is never reached and the flag
keeps its previous value. -/
def computePredictionTrigger (realtime : Bool) (task_done : Bool) :
    Except WorkerError Unit × Bool :=
  if realtime = false then (.ok (), true)
  else (.error .invalidMode, task_done)

/-! Concrete instances used by the witnesses and counterexamples. -/

/-- A non-empty person-box detection. -/
def someBoxes : Option (List Nat) := some [1]

/-- An inbound item with timestamp `t` and person boxes `b` (frame, scores
and ids are opaque tokens; the video size is a fixed 64x64). -/
def mkItem (t : Nat) (b : Option (List Nat)) : InItem :=
  ⟨t, t, b, 0, [t], (64, 64)⟩

/-- Batch-mode configuration: window capacity 3, detection interval 40 ms. -/
def cfg2 : Cfg := ⟨3, 40, false⟩

/-- A jittered inbound sequence (monotone except for one late frame at
t=175) whose firing events append FiringRecords with center timestamps
100, 250, 175 — out of ascending order.  The entry at t=91 carries no
person boxes, so the firing at t=250 (whose window center it is) records
nothing. -/
def c2items : List InItem :=
  [mkItem 5 someBoxes, mkItem 100 someBoxes, mkItem 91 none, mkItem 250 someBoxes,
   mkItem 300 someBoxes, mkItem 175 someBoxes, mkItem 341 someBoxes]

/-- Realtime configuration: window capacity 1, detection interval 40 ms. -/
def c9cfg : Cfg := ⟨1, 40, true⟩

/-- Collaborators whose scorer always raises (e.g. a model failure inside
`compute_prediction`); detector and feature update succeed. -/
def failingScorer : Collab :=
  ⟨fun _ => .ok 0, fun _ => .ok (), fun _ => .error .scorerFailure⟩

/-- An inbound item at t=41 with a person detection. -/
def c9x1 : InItem := ⟨7, 41, some [1], 0, [3], (64, 64)⟩

/-- An inbound item at t=100 with a person detection. -/
def c9x2 : InItem := ⟨8, 100, some [1], 0, [3], (64, 64)⟩

/-- Configuration of the spec's threshold scenario: capacity 2,
interval 40, realtime. -/
def c1cfg : Cfg := ⟨2, 40, true⟩

/-- A worker state whose buffer is one entry short of full, with
`last_milli = 0`: the next push fills it. -/
def c1sFull : WState :=
  { initState with frame_stack := [0], extra_stack := [⟨0, some [1], 0, [0]⟩] }

/-- The item arriving at exactly t = 40 = `last_milli + interval`. -/
def c1item40 : InItem := ⟨1, 40, some [1], 0, [1], (64, 64)⟩

/-- The item arriving at t = 41, one past the threshold. -/
def c1item41 : InItem := ⟨1, 41, some [1], 0, [1], (64, 64)⟩

/-- Batch configuration with capacity 1 (the window center is the newest
entry), interval 40. -/
def c5cfg : Cfg := ⟨1, 40, false⟩

/-- An item at t=41 whose detection metadata carries no person boxes. -/
def c5x : InItem := ⟨2, 41, none, 0, [], (64, 64)⟩

/-- A worker state holding a single deferred FiringRecord at t=100. -/
def c3s : WState :=
  { initState with timestamps := [⟨100, (64, 64), [1]⟩] }

/-- A worker state holding two deferred FiringRecords in ascending
timestamp order. -/
def c2sorted : WState :=
  { initState with timestamps := [⟨100, (64, 64), [1]⟩, ⟨175, (64, 64), [2]⟩] }

/-- A feature-cache pool holding one entry at `("SingleVideo", 2)`. -/
def c4pool : MemoryPool Nat := ⟨[((singleVideo, 2), 5)]⟩

/-! Structural lemmas about one loop iteration. -/

/-- The length of a Python `l[-n:]` slice. -/
theorem pyTail_length (n : Nat) (l : List α) :
    (pyTail n l).length = if n = 0 then l.length else min n l.length := by
  unfold pyTail
  split <;> simp
  omega

/-- The firing test of line 304, unfolded. -/
theorem fires_iff (cfg : Cfg) (s : WState) (x : InItem) :
    fires cfg s x = true ↔
      cfg.N ≤ (pushFrames cfg s x).length ∧
      s.last_milli + cfg.interval < x.cur_millis := by
  simp [fires]

/-- Both stacks are appended-and-truncated on every iteration, firing or
not (lines 298-301 precede the firing test). -/
theorem processItem_stacks (cfg : Cfg) (s : WState) (x : InItem) :
    (processItem cfg s x).1.frame_stack = pushFrames cfg s x ∧
    (processItem cfg s x).1.extra_stack = pushExtras cfg s x := by
  unfold processItem
  repeat' split
  all_goals exact ⟨rfl, rfl⟩

/-- On a firing iteration `last_milli` becomes `cur_millis` and the firing
log grows by that timestamp, whatever the center entry holds. -/
theorem processItem_fire_true (cfg : Cfg) (s : WState) (x : InItem)
    (h : fires cfg s x = true) :
    (processItem cfg s x).1.last_milli = x.cur_millis ∧
    (processItem cfg s x).1.fired = s.fired ++ [x.cur_millis] := by
  unfold processItem
  simp only [h, if_true]
  repeat' split
  all_goals exact ⟨rfl, rfl⟩

/-- On a non-firing iteration only the stacks change. -/
theorem processItem_fire_false (cfg : Cfg) (s : WState) (x : InItem)
    (h : fires cfg s x = false) :
    (processItem cfg s x).1 =
      { s with frame_stack := pushFrames cfg s x, extra_stack := pushExtras cfg s x } ∧
    (processItem cfg s x).2 = [] := by
  unfold processItem
  simp only [h]
  exact ⟨rfl, rfl⟩

/-! Claim C1. -/

/-- Claim C1: the scheduler fires for a newly dequeued work item — entering
the branch of line 304, which begins by assigning
`self.last_milli = cur_millis` — if and only if the (truncated) frame
buffer holds at least `frame_buffer_numbers` entries and `cur_millis`
strictly exceeds `last_milli + interval`; when it does not fire, nothing
beyond the stack push happens (no output, no pool write, no record).  With
`detect_rate = 25` the interval is `1000 // 25 = 40`, and from a
one-short-of-full buffer with `last_milli = 0`, the filling item at
t = 40 does not fire while the one at t = 41 does. -/
theorem c1_firing_condition :
    (∀ (cfg : Cfg) (s : WState) (x : InItem),
       fires cfg s x = true ↔
         cfg.N ≤ (pushFrames cfg s x).length ∧
         s.last_milli + cfg.interval < x.cur_millis)
    ∧ (∀ (cfg : Cfg) (s : WState) (x : InItem),
       (processItem cfg s x).1.last_milli =
         if fires cfg s x then x.cur_millis else s.last_milli)
    ∧ (∀ (cfg : Cfg) (s : WState) (x : InItem),
       fires cfg s x = false →
         (processItem cfg s x).2 = [] ∧
         (processItem cfg s x).1.putKeys = s.putKeys ∧
         (processItem cfg s x).1.timestamps = s.timestamps)
    ∧ intervalOf 25 = 40
    ∧ fires c1cfg c1sFull c1item40 = false
    ∧ fires c1cfg c1sFull c1item41 = true := by
  refine ⟨fun cfg s x => fires_iff cfg s x, fun cfg s x => ?_, fun cfg s x h => ?_, by decide,
    by decide, by decide⟩
  · by_cases h : fires cfg s x
    · rw [if_pos h, (processItem_fire_true cfg s x h).1]
    · rw [if_neg h, ((processItem_fire_false cfg s x (by simpa using h)).1)]
  · have hp := processItem_fire_false cfg s x h
    refine ⟨hp.2, ?_, ?_⟩ <;> rw [hp.1]

/-- Witness for C1: at the concrete non-firing threshold input t = 40,
the iteration emits nothing, writes no cache key and records nothing. -/
theorem c1_firing_condition_witness :
    (processItem c1cfg c1sFull c1item40).2 = [] ∧
    (processItem c1cfg c1sFull c1item40).1.putKeys = c1sFull.putKeys ∧
    (processItem c1cfg c1sFull c1item40).1.timestamps = c1sFull.timestamps :=
  c1_firing_condition.2.2.1 c1cfg c1sFull c1item40 (by decide)

/-! Claims C5, C8, C4. -/

/-- Claim C5: when the firing condition holds but the window's center entry
has no person boxes (`None` or empty, line 310), the cycle is skipped: no
pool write, no FiringRecord, no output — yet `last_milli` has already been
advanced to the item's timestamp (line 305 precedes the check). -/
theorem c5_empty_center_skips (cfg : Cfg) (s : WState) (x : InItem)
    (hf : fires cfg s x = true)
    (hb : noPersonBoxes (centerEntry cfg s x).boxes = true) :
    (processItem cfg s x).1.last_milli = x.cur_millis ∧
    (processItem cfg s x).1.putKeys = s.putKeys ∧
    (processItem cfg s x).1.timestamps = s.timestamps ∧
    (processItem cfg s x).2 = [] := by
  unfold processItem
  simp [hf, hb]

/-- Witness for C5: a full one-slot window firing at t = 41 whose center
entry carries no person boxes. -/
theorem c5_empty_center_skips_witness :
    (processItem c5cfg initState c5x).1.last_milli = c5x.cur_millis ∧
    (processItem c5cfg initState c5x).1.putKeys = initState.putKeys ∧
    (processItem c5cfg initState c5x).1.timestamps = initState.timestamps ∧
    (processItem c5cfg initState c5x).2 = [] :=
  c5_empty_center_skips c5cfg initState c5x (by decide) (by decide)

/-- Claim C8: calling `AVAPredictorWorker.compute_prediction` (lines
255-257) in realtime mode raises immediately (the assertion, the spec's
`InvalidModeError`) and leaves the `task_done` flag at its previous value;
in batch mode it succeeds and sets the flag. -/
theorem c8_flush_trigger_mode (d : Bool) :
    computePredictionTrigger true d = (Except.error WorkerError.invalidMode, d) ∧
    computePredictionTrigger false d = (Except.ok (), true) :=
  ⟨rfl, rfl⟩

/-- Claim C4 (the cache itself is not under src/ and is modelled from the
spec's contract): a `put` on an occupied `(stream-id, timestamp)` key fails
with `DuplicateKeyError` instead of overwriting, and a `get` on an absent
key fails with `KeyNotFoundError`. -/
theorem c4_cache_write_once {α : Type} (p : MemoryPool α) (sid : String)
    (ts : Nat) (v : α) :
    (p.containsKey sid ts = true →
       p.put sid ts v = Except.error WorkerError.duplicateKey) ∧
    (p.containsKey sid ts = false →
       p.get sid ts = Except.error WorkerError.keyNotFound) := by
  constructor
  · intro h
    unfold MemoryPool.put
    rw [show p.entries.any (fun e => e.1 = (sid, ts)) = true from h]
    rfl
  · intro h
    unfold MemoryPool.get
    have hn : p.entries.find? (fun e => e.1 = (sid, ts)) = none := by
      rw [List.find?_eq_none]
      intro a ha
      have := (List.any_eq_false.mp h) a ha
      simpa using this
    rw [hn]

/-- Witness for C4: on a pool holding key `("SingleVideo", 2)`, putting at
that key fails with the duplicate-key error and getting at the absent key
`("SingleVideo", 3)` fails with the key-not-found error. -/
theorem c4_cache_write_once_witness :
    c4pool.put singleVideo 2 7 = Except.error WorkerError.duplicateKey ∧
    c4pool.get singleVideo 3 = Except.error WorkerError.keyNotFound :=
  ⟨(c4_cache_write_once c4pool singleVideo 2 7).1 (by decide),
   (c4_cache_write_once c4pool singleVideo 3 7).2 (by decide)⟩

/-! Claim C3. -/

/-- The deferred pass emits one result tuple per FiringRecord. -/
theorem flushOuts_length (cfg : Cfg) :
    ∀ rs : List FiringRecord, (flushOuts cfg rs).length = rs.length := by
  intro rs
  induction rs with
  | nil => rfl
  | cons r rs ih => simp [flushOuts, ih]

/-- Every element of the deferred pass is a result tuple, never the
terminal marker. -/
theorem flushOuts_ne_done (cfg : Cfg) :
    ∀ (rs : List FiringRecord) (o : Out), o ∈ flushOuts cfg rs → o ≠ Out.done := by
  intro rs
  induction rs with
  | nil => intro o ho; simp [flushOuts] at ho
  | cons r rs ih =>
    intro o ho
    rcases (by simpa [flushOuts] using ho : o = Out.result _ _ _ ∨ o ∈ flushOuts cfg rs) with
      h | h
    · subst h; intro hc; cases hc
    · exact ih o h

/-- Claim C3: mode isolation.  In realtime mode a successful firing (full
buffer, interval elapsed, non-empty center person boxes) puts exactly one
result tuple on the output queue within that same loop iteration — i.e.
before the next inbound item is dequeued.  In batch mode an iteration puts
nothing on the output queue; the flush puts exactly
`len(self.timestamps) + 1` elements, of which the last is the terminal
`"done"` marker and all others are result tuples. -/
theorem c3_mode_isolation (cfg : Cfg) (s : WState) (x : InItem) :
    (cfg.realtime = true → fires cfg s x = true →
       noPersonBoxes (centerEntry cfg s x).boxes = false →
       (processItem cfg s x).2 =
         [Out.result ((centerEntry cfg s x).ts / cfg.interval) (centerEntry cfg s x).ts
            (centerEntry cfg s x).ids]) ∧
    (cfg.realtime = false → (processItem cfg s x).2 = []) ∧
    (flush cfg s).2.length = s.timestamps.length + 1 ∧
    (flush cfg s).2.getLast? = some Out.done ∧
    (∀ o ∈ (flush cfg s).2.dropLast, o ≠ Out.done) := by
  refine ⟨fun hr hf hb => ?_, fun hr => ?_, ?_, ?_, ?_⟩
  · unfold processItem
    simp [hf, hb, hr]
  · unfold processItem
    repeat' split
    all_goals simp_all
  · simp [flush, flushOuts_length]
  · simp [flush]
  · intro o ho
    rw [show (flush cfg s).2 = flushOuts cfg s.timestamps ++ [Out.done] from rfl,
      List.dropLast_concat] at ho
    exact flushOuts_ne_done cfg s.timestamps o ho

/-- Witness for C3: a realtime firing at t = 41 from an empty one-slot
window emits exactly its result tuple; a batch iteration emits nothing; on
a state holding the single FiringRecord at t = 100, the element of the
flush output before the terminal marker is its result tuple, not the
marker. -/
theorem c3_mode_isolation_witness :
    (processItem c9cfg initState c9x1).2 =
      [Out.result ((centerEntry c9cfg initState c9x1).ts / c9cfg.interval)
         (centerEntry c9cfg initState c9x1).ts (centerEntry c9cfg initState c9x1).ids] ∧
    (processItem cfg2 initState (mkItem 5 someBoxes)).2 = [] ∧
    Out.result 2 100 [1] ≠ Out.done :=
  ⟨(c3_mode_isolation c9cfg initState c9x1).1 rfl (by decide) (by decide),
   (c3_mode_isolation cfg2 initState (mkItem 5 someBoxes)).2.1 rfl,
   (c3_mode_isolation cfg2 c3s (mkItem 5 someBoxes)).2.2.2.2 (Out.result 2 100 [1])
     (by decide)⟩

/-! Claim C2. -/

/-- The timestamps of the deferred pass are the record timestamps in
insertion order. -/
theorem resultTimestamps_flushOuts (cfg : Cfg) :
    ∀ rs : List FiringRecord,
      resultTimestamps (flushOuts cfg rs) = rs.map FiringRecord.center_ts := by
  intro rs
  induction rs with
  | nil => rfl
  | cons r rs ih => simp [flushOuts, resultTimestamps, ih]

/-- The terminal marker contributes no timestamp. -/
theorem resultTimestamps_append_done :
    ∀ l : List Out, resultTimestamps (l ++ [Out.done]) = resultTimestamps l := by
  intro l
  induction l with
  | nil => rfl
  | cons o rest ih => cases o <;> simp [resultTimestamps, ih]

/-- Counterexample to claim C2: in batch mode the jittered input sequence
`c2items` appends FiringRecords with center timestamps 100, 250, 175 (out
of ascending order), and the flush then emits them in that same insertion
order — 100, 250, 175 — not in the ascending order 100, 175, 250 the claim
asserts. -/
theorem c2_flush_order_counterexample :
    (run cfg2 initState c2items).1.timestamps.map FiringRecord.center_ts =
      [100, 250, 175] ∧
    resultTimestamps (flush cfg2 (run cfg2 initState c2items).1).2 =
      [100, 250, 175] ∧
    ascChk (resultTimestamps (flush cfg2 (run cfg2 initState c2items).1).2) = false := by
  decide

/-- Claim C2 as amended: after the drain flush is triggered, the outbound
results are emitted in FiringRecord insertion order (the flush loop of
lines 278-280 iterates `self.timestamps` as appended and sorts nothing);
consequently the emission is in ascending center-timestamp order exactly
when the records were appended in ascending timestamp order. -/
theorem c2_flush_insertion_order (cfg : Cfg) (s : WState) :
    resultTimestamps (flush cfg s).2 = s.timestamps.map FiringRecord.center_ts ∧
    (ascChk (s.timestamps.map FiringRecord.center_ts) = true →
       ascChk (resultTimestamps (flush cfg s).2) = true) := by
  have h : resultTimestamps (flush cfg s).2 = s.timestamps.map FiringRecord.center_ts := by
    rw [show (flush cfg s).2 = flushOuts cfg s.timestamps ++ [Out.done] from rfl,
      resultTimestamps_append_done, resultTimestamps_flushOuts]
  exact ⟨h, fun ha => by rw [h]; exact ha⟩

/-- Witness for C2 (amended): on a state whose two records are in ascending
order (100 then 175), the flush emits 100, 175 — ascending. -/
theorem c2_flush_insertion_order_witness :
    resultTimestamps (flush cfg2 c2sorted).2 =
      c2sorted.timestamps.map FiringRecord.center_ts ∧
    ascChk (resultTimestamps (flush cfg2 c2sorted).2) = true :=
  ⟨(c2_flush_insertion_order cfg2 c2sorted).1,
   (c2_flush_insertion_order cfg2 c2sorted).2 (by decide)⟩

/-! Claim C6. -/

/-- One push preserves equality of the two buffer lengths and, for a
positive capacity, keeps both at most the capacity. -/
theorem processItem_window_inv (cfg : Cfg) (hN : 0 < cfg.N) (s : WState)
    (x : InItem) (hlen : s.frame_stack.length = s.extra_stack.length) :
    (processItem cfg s x).1.frame_stack.length =
      (processItem cfg s x).1.extra_stack.length ∧
    (processItem cfg s x).1.frame_stack.length ≤ cfg.N := by
  have hs := processItem_stacks cfg s x
  rw [hs.1, hs.2]
  unfold pushFrames pushExtras
  rw [pyTail_length, pyTail_length]
  have hNe : cfg.N ≠ 0 := Nat.pos_iff_ne_zero.mp hN
  simp [hlen, hNe]

/-- Running any item sequence from buffers of equal, within-capacity
lengths keeps them equal and within capacity. -/
theorem run_window_inv (cfg : Cfg) (hN : 0 < cfg.N) :
    ∀ (l : List InItem) (s : WState),
      s.frame_stack.length = s.extra_stack.length →
      s.frame_stack.length ≤ cfg.N →
      (run cfg s l).1.frame_stack.length = (run cfg s l).1.extra_stack.length ∧
      (run cfg s l).1.frame_stack.length ≤ cfg.N := by
  intro l
  induction l with
  | nil => intro s h1 h2; exact ⟨h1, h2⟩
  | cons x xs ih =>
    intro s h1 h2
    have hstep := processItem_window_inv cfg hN s x h1
    exact ih (processItem cfg s x).1 hstep.1 hstep.2

/-- Claim C6: window invariant.  For every sequence of processed inbound
items, the frame stack and the metadata stack have equal lengths, both at
most the configured capacity `frame_buffer_numbers` (positive by
construction: `FRAME_NUM * FRAME_SAMPLE_RATE` with both factors positive).
Since the item list is arbitrary, this holds after every push of every
run. -/
theorem c6_window_invariant (cfg : Cfg) (hN : 0 < cfg.N) (l : List InItem) :
    (run cfg initState l).1.frame_stack.length =
      (run cfg initState l).1.extra_stack.length ∧
    (run cfg initState l).1.frame_stack.length ≤ cfg.N :=
  run_window_inv cfg hN l initState rfl (Nat.zero_le _)

/-- Witness for C6: the seven-item jitter run at capacity 3 ends with both
stacks of equal length at most 3. -/
theorem c6_window_invariant_witness :
    (run cfg2 initState c2items).1.frame_stack.length =
      (run cfg2 initState c2items).1.extra_stack.length ∧
    (run cfg2 initState c2items).1.frame_stack.length ≤ cfg2.N :=
  c6_window_invariant cfg2 (by decide) c2items

/-! Claim C7. -/

/-- The last element of a list extended by one element. -/
theorem lastOr_append_one (c : Nat) :
    ∀ (l : List Nat) (d : Nat), lastOr d (l ++ [c]) = c := by
  intro l
  induction l with
  | nil => intro d; rfl
  | cons t ts ih => intro d; exact ih t

/-- Appending an element beyond the last-plus-interval threshold preserves
the gap property. -/
theorem gapsChk_append_one (i c : Nat) :
    ∀ (l : List Nat) (p : Nat), gapsChk i p l = true → lastOr p l + i < c →
      gapsChk i p (l ++ [c]) = true := by
  intro l
  induction l with
  | nil =>
    intro p _ h2
    simpa [gapsChk, lastOr] using h2
  | cons t ts ih =>
    intro p h1 h2
    rw [List.cons_append]
    simp only [gapsChk, Bool.and_eq_true, decide_eq_true_eq] at h1 ⊢
    exact ⟨h1.1, ih t h1.2 h2⟩

/-- Along any run, the firing log keeps gaps above the interval and
`last_milli` equals the last logged firing timestamp (or its starting
value when nothing fired yet). -/
theorem run_fired_inv (cfg : Cfg) :
    ∀ (l : List InItem) (s : WState),
      gapsChk cfg.interval 0 s.fired = true →
      s.last_milli = lastOr 0 s.fired →
      gapsChk cfg.interval 0 (run cfg s l).1.fired = true ∧
      (run cfg s l).1.last_milli = lastOr 0 (run cfg s l).1.fired := by
  intro l
  induction l with
  | nil => intro s h1 h2; exact ⟨h1, h2⟩
  | cons x xs ih =>
    intro s h1 h2
    by_cases hf : fires cfg s x
    · have hp := processItem_fire_true cfg s x hf
      have hgap : s.last_milli + cfg.interval < x.cur_millis :=
        ((fires_iff cfg s x).mp hf).2
      refine ih (processItem cfg s x).1 ?_ ?_
      · rw [hp.2]
        exact gapsChk_append_one cfg.interval x.cur_millis s.fired 0 h1 (by omega)
      · rw [hp.1, hp.2, lastOr_append_one]
    · have hp := processItem_fire_false cfg s x (by simpa using hf)
      refine ih (processItem cfg s x).1 ?_ ?_ <;> rw [hp.1] <;> assumption

/-- Claim C7: monotonic firing.  `last_milli` never decreases across a loop
iteration, and along any run from the initial state the successive firing
timestamps each exceed their predecessor (initially 0) by strictly more
than the scheduler interval — so `last_fired_timestamp` only moves forward
and no timestamp can fire twice within one scheduler interval. -/
theorem c7_monotonic_firing :
    (∀ (cfg : Cfg) (s : WState) (x : InItem),
       s.last_milli ≤ (processItem cfg s x).1.last_milli) ∧
    (∀ (cfg : Cfg) (l : List InItem),
       gapsChk cfg.interval 0 (run cfg initState l).1.fired = true) := by
  constructor
  · intro cfg s x
    by_cases hf : fires cfg s x
    · rw [(processItem_fire_true cfg s x hf).1]
      have := ((fires_iff cfg s x).mp hf).2
      omega
    · rw [(processItem_fire_false cfg s x (by simpa using hf)).1]
  · intro cfg l
    exact (run_fired_inv cfg l initState rfl rfl).1

/-! Claim C10. -/

/-- The pool key set only grows across a loop iteration. -/
theorem processItem_putKeys_mono (cfg : Cfg) (s : WState) (x : InItem)
    (a : Nat) (ha : a ∈ s.putKeys) : a ∈ (processItem cfg s x).1.putKeys := by
  unfold processItem
  repeat' split
  all_goals simp_all

/-- The pool key set only grows across a run. -/
theorem run_putKeys_mono (cfg : Cfg) :
    ∀ (l : List InItem) (s : WState) (a : Nat),
      a ∈ s.putKeys → a ∈ (run cfg s l).1.putKeys := by
  intro l
  induction l with
  | nil => intro s a ha; exact ha
  | cons x xs ih =>
    intro s a ha
    exact ih (processItem cfg s x).1 a (processItem_putKeys_mono cfg s x a ha)

/-- One loop iteration preserves the invariant that every FiringRecord's
score key (`center_timestamp // interval`) has been written to the pool,
and every result tuple it emits carries an already-written key: the batch
branch appends the record and the key in the same iteration, and the
realtime branch scores the very key `update_feature` just wrote. -/
theorem processItem_keyInv (cfg : Cfg) (s : WState) (x : InItem)
    (hinv : ∀ r ∈ s.timestamps, r.center_ts / cfg.interval ∈ s.putKeys) :
    (∀ r ∈ (processItem cfg s x).1.timestamps,
       r.center_ts / cfg.interval ∈ (processItem cfg s x).1.putKeys) ∧
    (∀ k t i, Out.result k t i ∈ (processItem cfg s x).2 →
       k ∈ (processItem cfg s x).1.putKeys) := by
  unfold processItem
  repeat' split
  · refine ⟨fun r hr => ?_, fun k t i hk => ?_⟩
    · exact hinv r (by simpa using hr)
    · simp at hk
  · refine ⟨fun r hr => ?_, fun k t i hk => ?_⟩
    · simp only [List.mem_append]
      exact Or.inl (hinv r (by simpa using hr))
    · simp only [List.mem_singleton, Out.result.injEq] at hk
      simp [hk.1]
  · refine ⟨fun r hr => ?_, fun k t i hk => ?_⟩
    · rcases (by simpa using hr :
          r ∈ s.timestamps ∨ r = (⟨(centerEntry cfg s x).ts, x.video_size,
            (centerEntry cfg s x).ids⟩ : FiringRecord)) with h | h
      · simp only [List.mem_append]
        exact Or.inl (hinv r h)
      · subst h
        simp
    · simp at hk
  · refine ⟨fun r hr => ?_, fun k t i hk => ?_⟩
    · exact hinv r (by simpa using hr)
    · simp at hk

/-- Along any run from a state satisfying the key invariant, the final
state satisfies it and every emitted result key is in the final pool. -/
theorem run_keyInv (cfg : Cfg) :
    ∀ (l : List InItem) (s : WState),
      (∀ r ∈ s.timestamps, r.center_ts / cfg.interval ∈ s.putKeys) →
      (∀ r ∈ (run cfg s l).1.timestamps,
         r.center_ts / cfg.interval ∈ (run cfg s l).1.putKeys) ∧
      (∀ k t i, Out.result k t i ∈ (run cfg s l).2 →
         k ∈ (run cfg s l).1.putKeys) := by
  intro l
  induction l with
  | nil =>
    intro s hinv
    exact ⟨hinv, fun k t i hk => by simp [run] at hk⟩
  | cons x xs ih =>
    intro s hinv
    have hstep := processItem_keyInv cfg s x hinv
    have hrest := ih (processItem cfg s x).1 hstep.1
    refine ⟨hrest.1, fun k t i hk => ?_⟩
    rw [show (run cfg s (x :: xs)).2 =
        (processItem cfg s x).2 ++ (run cfg (processItem cfg s x).1 xs).2 from rfl] at hk
    rcases List.mem_append.mp hk with hk | hk
    · exact run_putKeys_mono cfg xs (processItem cfg s x).1 k (hstep.2 k t i hk)
    · exact hrest.2 k t i hk

/-- Every result tuple of the deferred pass takes its key from some record,
as `center_timestamp // interval`. -/
theorem flushOuts_key_from_record (cfg : Cfg) :
    ∀ (rs : List FiringRecord) (k t : Nat) (i : List Nat),
      Out.result k t i ∈ flushOuts cfg rs →
      ∃ r ∈ rs, k = r.center_ts / cfg.interval := by
  intro rs
  induction rs with
  | nil => intro k t i hk; simp [flushOuts] at hk
  | cons r rs ih =>
    intro k t i hk
    rcases (by simpa [flushOuts] using hk :
        (k = r.center_ts / cfg.interval ∧ t = r.center_ts ∧ i = r.ids) ∨
          Out.result k t i ∈ flushOuts cfg rs) with h | h
    · exact ⟨r, by simp, h.1⟩
    · rcases ih k t i h with ⟨r', hr', hkr'⟩
      exact ⟨r', by simp [hr'], hkr'⟩

/-- Claim C10: key agreement between update and score.  Along any run from
the initial state: every FiringRecord's deferred score key
(`center_timestamp // interval`) is a key `update_feature` has written;
every realtime result was scored at a written key; and every result the
drain flush would emit from the final state is scored at a written key.
Hence, under the single-worker flow, every cache `get` performed by a score
call is preceded by a `put` of the same `("SingleVideo", key)` key and
`KeyNotFoundError` is unreachable. -/
theorem c10_key_agreement (cfg : Cfg) (l : List InItem) :
    (∀ r ∈ (run cfg initState l).1.timestamps,
       r.center_ts / cfg.interval ∈ (run cfg initState l).1.putKeys) ∧
    (∀ k t i, Out.result k t i ∈ (run cfg initState l).2 →
       k ∈ (run cfg initState l).1.putKeys) ∧
    (∀ k t i, Out.result k t i ∈ (flush cfg (run cfg initState l).1).2 →
       k ∈ (run cfg initState l).1.putKeys) := by
  have h := run_keyInv cfg l initState (by intro r hr; simp [initState] at hr)
  refine ⟨h.1, h.2, fun k t i hk => ?_⟩
  rw [show (flush cfg (run cfg initState l).1).2 =
      flushOuts cfg (run cfg initState l).1.timestamps ++ [Out.done] from rfl] at hk
  rcases List.mem_append.mp hk with hk | hk
  · rcases flushOuts_key_from_record cfg _ k t i hk with ⟨r, hr, hkr⟩
    rw [hkr]
    exact h.1 r hr
  · simp at hk

/-- Witness for C10: in the seven-item batch run, the first record's score
key 100 // 40 = 2 is among the written pool keys, the key of a flush result
is written, and in a realtime run the emitted result's key is written. -/
theorem c10_key_agreement_witness :
    (2 : Nat) ∈ (run cfg2 initState c2items).1.putKeys ∧
    (4 : Nat) ∈ (run cfg2 initState c2items).1.putKeys ∧
    (1 : Nat) ∈ (run c9cfg initState [mkItem 41 someBoxes]).1.putKeys :=
  ⟨by
    have := (c10_key_agreement cfg2 c2items).1 ⟨100, (64, 64), [100]⟩ (by decide)
    simpa using this,
   by
    have := (c10_key_agreement cfg2 c2items).2.2 4 175 [175] (by decide)
    simpa using this,
   by
    have := (c10_key_agreement c9cfg [mkItem 41 someBoxes]).2.1 1 41 [41] (by decide)
    simpa using this⟩

/-! Claim C9. -/

/-- Counterexample to claim C9: with a one-slot realtime window, interval
40 and a scorer that raises, processing the items at t=41 and t=100 crashes
mid-cycle at t=41: the scheduler state is NOT left unchanged
(`last_milli` has already been advanced from 0 to 41 before the scorer
ran), the error is NOT caught at the loop boundary (the run ends with the
propagated scorer error), and the loop does NOT continue (the t=100 item —
which would itself fire, as the last conjunct shows — is never processed:
the firing log stops at 41). -/
theorem c9_midcycle_counterexample :
    (runE c9cfg failingScorer initState [c9x1, c9x2]).1.last_milli = 41 ∧
    initState.last_milli = 0 ∧
    (runE c9cfg failingScorer initState [c9x1, c9x2]).2 =
      Except.error ExtErr.scorerFailure ∧
    (runE c9cfg failingScorer initState [c9x1, c9x2]).1.fired = [41] ∧
    fires c9cfg (runE c9cfg failingScorer initState [c9x1, c9x2]).1 c9x2 = true :=
  ⟨rfl, rfl, rfl, rfl, by decide⟩

/-- A collaborator failure can only arise inside the firing branch. -/
theorem processItemE_error_fires (cfg : Cfg) (cb : Collab) (s : WState)
    (x : InItem) (e : ExtErr) (h : (processItemE cfg cb s x).2 = .error e) :
    fires cfg s x = true := by
  by_cases hf : fires cfg s x
  · exact hf
  · exfalso
    unfold processItemE at h
    simp [hf] at h

/-- Claim C9 as amended: if a detector, feature-update or scorer invocation
fails during a firing cycle, the exception propagates uncaught out of the
worker loop (the `try/except` of lines 285-290 only guards the queue read),
so the remaining inbound items are never processed; and the state mutations
already executed in that cycle persist — in particular the stack push and
the advance of `last_milli` to the failing item's timestamp (line 305), both
of which precede every collaborator call. -/
theorem c9_midcycle_failure (cfg : Cfg) (cb : Collab) (s : WState)
    (x : InItem) (xs : List InItem) (e : ExtErr)
    (h : (processItemE cfg cb s x).2 = .error e) :
    (processItemE cfg cb s x).1.last_milli = x.cur_millis ∧
    (processItemE cfg cb s x).1.frame_stack = pushFrames cfg s x ∧
    runE cfg cb s (x :: xs) = ((processItemE cfg cb s x).1, .error e) := by
  have hrun : runE cfg cb s (x :: xs) = ((processItemE cfg cb s x).1, .error e) := by
    have hp : processItemE cfg cb s x = ((processItemE cfg cb s x).1, Except.error e) := by
      rw [← h]
    rw [show runE cfg cb s (x :: xs) =
        (match processItemE cfg cb s x with
         | (s1, .error e) => (s1, .error e)
         | (s1, .ok o1) =>
           match runE cfg cb s1 xs with
           | (s2, .error e) => (s2, .error e)
           | (s2, .ok o2) => (s2, .ok (o1 ++ o2))) from rfl, hp]
  have hf := processItemE_error_fires cfg cb s x e h
  refine ⟨?_, ?_, hrun⟩ <;>
    (unfold processItemE
     unfold processItemE at h
     simp only [hf, if_true]
     repeat' split
     all_goals simp_all)

/-- Witness for C9 (amended): the failing-scorer cycle at t=41 left
`last_milli` at 41, kept the pushed frame, and aborted the two-item run
with the scorer error. -/
theorem c9_midcycle_failure_witness :
    (processItemE c9cfg failingScorer initState c9x1).1.last_milli = c9x1.cur_millis ∧
    (processItemE c9cfg failingScorer initState c9x1).1.frame_stack =
      pushFrames c9cfg initState c9x1 ∧
    runE c9cfg failingScorer initState (c9x1 :: [c9x2]) =
      ((processItemE c9cfg failingScorer initState c9x1).1,
       Except.error ExtErr.scorerFailure) :=
  c9_midcycle_failure c9cfg failingScorer initState c9x1 [c9x2]
    ExtErr.scorerFailure rfl
